import Mathlib

/-!
Verification of the CrowdSurfer edge-agent core (queue manager, config
manager, management agent) against its natural-language specification.

The Python sources are shallowly embedded:
* `telemetry_queue.py`  → the `QueueState` model and the queue operations;
* `config.py`           → the `Config` record and its mutators;
* `management_agent.py` → the heartbeat protocol, payload signing,
  configuration caching and SSID reconciliation.

SQLite rows become a Lean list kept in insertion (rowid) order; the
`AUTOINCREMENT` id counter is carried explicitly as `nextId`.  ISO-8601
timestamp strings, which the code compares lexicographically, become the
`Timestamp` record compared lexicographically field by field (second
granularity).  Every place where the Python code can hit an I/O or
subprocess failure is modelled by an explicit oracle argument describing
that outcome.
-/

set_option maxRecDepth 8000

namespace CrowdSurfer

/-! ## Timestamps

`datetime.utcnow().isoformat() + 'Z'` produces a fixed-width ISO string;
the queue and the cleanup logic compare those strings lexicographically,
which on well-formed values coincides with the field-lexicographic order
modelled here. -/

structure Timestamp where
  year : Nat
  month : Nat
  day : Nat
  sec : Nat
deriving DecidableEq, Repr

/-- Strict lexicographic order on timestamps (the order of the ISO strings). -/
def tsLt (a b : Timestamp) : Bool :=
  decide (a.year < b.year) ||
    (decide (a.year = b.year) &&
      (decide (a.month < b.month) ||
        (decide (a.month = b.month) &&
          (decide (a.day < b.day) ||
            (decide (a.day = b.day) && decide (a.sec < b.sec))))))

/-- Non-strict lexicographic order on timestamps. -/
def tsLe (a b : Timestamp) : Bool :=
  tsLt a b || decide (a = b)

theorem tsLt_irrefl (a : Timestamp) : tsLt a a = false := by
  simp [tsLt]

theorem tsLt_asymm {a b : Timestamp} (h : tsLt a b = true) : tsLt b a = false := by
  rw [Bool.eq_false_iff]
  intro hcontra
  simp only [tsLt, Bool.or_eq_true, Bool.and_eq_true, decide_eq_true_iff] at h hcontra
  omega

theorem tsLt_trans {a b c : Timestamp} (h1 : tsLt a b = true) (h2 : tsLt b c = true) :
    tsLt a c = true := by
  simp only [tsLt, Bool.or_eq_true, Bool.and_eq_true, decide_eq_true_iff] at h1 h2 ⊢
  omega

theorem tsLt_total (a b : Timestamp) : tsLt a b = true ∨ tsLt b a = true ∨ a = b := by
  by_cases hy : a.year = b.year
  · by_cases hm : a.month = b.month
    · by_cases hd : a.day = b.day
      · by_cases hs : a.sec = b.sec
        · right; right
          cases a; cases b; simp_all
        · simp only [tsLt, Bool.or_eq_true, Bool.and_eq_true, decide_eq_true_iff]
          omega
      · simp only [tsLt, Bool.or_eq_true, Bool.and_eq_true, decide_eq_true_iff]
        omega
    · simp only [tsLt, Bool.or_eq_true, Bool.and_eq_true, decide_eq_true_iff]
      omega
  · simp only [tsLt, Bool.or_eq_true, Bool.and_eq_true, decide_eq_true_iff]
    omega

theorem tsLe_of_not_lt {a b : Timestamp} (h : tsLt a b = false) : tsLe b a = true := by
  rcases tsLt_total a b with h1 | h1 | h1
  · rw [h1] at h; cases h
  · simp [tsLe, h1]
  · simp [tsLe, h1]

theorem tsLe_refl (a : Timestamp) : tsLe a a = true := by
  simp [tsLe]

theorem tsLe_trans {a b c : Timestamp} (h1 : tsLe a b = true) (h2 : tsLe b c = true) :
    tsLe a c = true := by
  simp only [tsLe, Bool.or_eq_true, decide_eq_true_iff] at h1 h2 ⊢
  rcases h1 with h1 | h1 <;> rcases h2 with h2 | h2
  · exact Or.inl (tsLt_trans h1 h2)
  · subst h2; exact Or.inl h1
  · subst h1; exact Or.inl h2
  · subst h1; exact Or.inr h2

/-! ## Queue model (`telemetry_queue.py`) -/

/-- `class QueueItemType(Enum)`. -/
inductive QueueItemType where
  | PORTAL_SUBMISSION
  | ANALYTICS_RECORD
deriving DecidableEq, Repr

/-- The enum `value`: `PORTAL_SUBMISSION = 1`, `ANALYTICS_RECORD = 2`. -/
def QueueItemType.value : QueueItemType → Nat
  | .PORTAL_SUBMISSION => 1
  | .ANALYTICS_RECORD => 2

/-- One row of the `queue_items` table. -/
structure QueueItem where
  id : Nat
  item_type : QueueItemType
  data : String
  created_at : Timestamp
  retry_count : Nat
  last_retry_at : Option Timestamp
deriving DecidableEq, Repr

/-- The `priority` column: both `INSERT` statements store
`QueueItemType.<kind>.value` in the `priority` column, so the column is a
function of `item_type` on every row the code creates. -/
def QueueItem.priority (it : QueueItem) : Nat := it.item_type.value

/-- The `queue_items` table (rows in rowid order) together with the
`AUTOINCREMENT` counter for the next `id`. -/
structure QueueState where
  items : List QueueItem
  nextId : Nat
deriving DecidableEq, Repr

/-- Error outcomes surfaced by the queue operations: the capacity
`ValueError` raised by `enqueue_submission`, and re-raised storage-layer
(SQLite) exceptions. -/
inductive QueueError where
  | capacityError
  | storageError
deriving DecidableEq, Repr

/-- `MAX_ANALYTICS_RECORDS = 10000`. -/
def MAX_ANALYTICS_RECORDS : Nat := 10000

/-- `MAX_SUBMISSIONS = 1000`. -/
def MAX_SUBMISSIONS : Nat := 1000

/-- `SELECT COUNT(*) FROM queue_items WHERE item_type = ?`. -/
def countType (q : QueueState) (t : QueueItemType) : Nat :=
  q.items.countP (fun it => it.item_type == t)

/-- `_get_analytics_count`. -/
def get_analytics_count (q : QueueState) : Nat := countType q .ANALYTICS_RECORD

/-- `_get_submission_count`. -/
def get_submission_count (q : QueueState) : Nat := countType q .PORTAL_SUBMISSION

/-- `INSERT INTO queue_items (item_type, priority, data, created_at) VALUES ...`:
appends a fresh row with the next rowid, `retry_count` defaulting to 0. -/
def insertItem (q : QueueState) (t : QueueItemType) (data : String) (now : Timestamp) :
    QueueState :=
  { items := q.items ++
      [{ id := q.nextId, item_type := t, data := data, created_at := now,
         retry_count := 0, last_retry_at := none }],
    nextId := q.nextId + 1 }

/-- `SELECT id FROM queue_items WHERE item_type = analytics ORDER BY created_at
ASC LIMIT 1`, modelled as the first row (in rowid order) attaining the minimal
`created_at` among analytics rows. -/
def minByCreated : List QueueItem → Option QueueItem
  | [] => none
  | x :: xs => some (xs.foldl (fun best it => if tsLt it.created_at best.created_at then it else best) x)

/-- The analytics rows, in rowid order. -/
def analyticsRows (q : QueueState) : List QueueItem :=
  q.items.filter (fun it => it.item_type == .ANALYTICS_RECORD)

/-- The row `_drop_oldest_analytics` selects for deletion. -/
def oldestAnalytics (q : QueueState) : Option QueueItem :=
  minByCreated (analyticsRows q)

/-- Storage oracle for one enqueue call.  Each flag is one SQLite
transaction of the Python code:
* `countOk` — the `COUNT(*)` in `_get_analytics_count` /
  `_get_submission_count`; those helpers catch any storage exception and
  *return 0*, so a failed count is observed as an empty queue;
* `dropOk` — the eviction `DELETE` in `_drop_oldest_analytics`, whose
  exception is caught and only logged (nothing is dropped);
* `insertOk` — the `INSERT` in the enqueue body, whose exception is logged
  and re-raised. -/
structure StoreEnv where
  countOk : Bool := true
  dropOk : Bool := true
  insertOk : Bool := true
deriving DecidableEq, Repr

/-- `_drop_oldest_analytics`: `DELETE FROM queue_items WHERE id = (...)`;
any exception is caught and only logged, leaving the queue unchanged. -/
def drop_oldest_analytics (q : QueueState) (dropOk : Bool) : QueueState :=
  if dropOk then
    match oldestAnalytics q with
    | none => q
    | some old => { q with items := q.items.filter (fun it => it.id != old.id) }
  else q

/-- `enqueue_analytics`.  The capacity check reads
`_get_analytics_count()`, which yields 0 when its `COUNT(*)` fails; at or
above the cap the oldest analytics row is dropped (its own transaction,
failure swallowed), then the insert runs; an insert failure is logged and
re-raised. -/
def enqueue_analytics (q : QueueState) (record : String) (now : Timestamp)
    (env : StoreEnv) : Option QueueError × QueueState :=
  let observed := if env.countOk then get_analytics_count q else 0
  let q1 := if MAX_ANALYTICS_RECORDS ≤ observed then drop_oldest_analytics q env.dropOk else q
  if env.insertOk then (none, insertItem q1 .ANALYTICS_RECORD record now)
  else (some .storageError, q1)

/-- `enqueue_submission`: the capacity check reads
`_get_submission_count()`, which yields 0 when its `COUNT(*)` fails, and
raises `ValueError` before any insert when at capacity; a storage failure in
the insert is logged and re-raised. -/
def enqueue_submission (q : QueueState) (submission : String) (now : Timestamp)
    (env : StoreEnv) : Option QueueError × QueueState :=
  let observed := if env.countOk then get_submission_count q else 0
  if MAX_SUBMISSIONS ≤ observed then (some .capacityError, q)
  else if env.insertOk then (none, insertItem q .PORTAL_SUBMISSION submission now)
  else (some .storageError, q)

/-- The `ORDER BY priority ASC, created_at ASC` comparison. -/
def dequeueLe (a b : QueueItem) : Bool :=
  decide (a.priority < b.priority) ||
    (decide (a.priority = b.priority) && tsLe a.created_at b.created_at)

/-- The rows `dequeue_batch` reads: all rows sorted by
`(priority ASC, created_at ASC)` (stable on rowid order), truncated by
`LIMIT batch_size`. -/
def dequeue_batch_rows (q : QueueState) (batch_size : Nat) : List QueueItem :=
  (q.items.mergeSort dequeueLe).take batch_size

/-- `dequeue_batch`: a read-only `SELECT` producing `(id, item_type, data)`
tuples; any exception is caught and an empty list returned (`readOk` is the
storage oracle).  The table itself is never modified. -/
def dequeue_batch (q : QueueState) (batch_size : Nat) (readOk : Bool) :
    List (Nat × QueueItemType × String) × QueueState :=
  if readOk then
    ((dequeue_batch_rows q batch_size).map (fun it => (it.id, it.item_type, it.data)), q)
  else ([], q)

/-- `mark_synced`: `DELETE FROM queue_items WHERE id IN (...)`; an empty id
list returns immediately; a storage exception is caught and only logged
(never re-raised), so the function always returns normally. -/
def mark_synced (q : QueueState) (item_ids : List Nat) (storageOk : Bool) :
    Option QueueError × QueueState :=
  if item_ids.isEmpty then (none, q)
  else if storageOk then
    (none, { q with items := q.items.filter (fun it => !(item_ids.contains it.id)) })
  else (none, q)

/-- `mark_failed`: `UPDATE queue_items SET retry_count = retry_count + 1,
last_retry_at = ? WHERE id IN (...)`; as in `mark_synced`, a storage
exception is caught and only logged. -/
def mark_failed (q : QueueState) (item_ids : List Nat) (now : Timestamp)
    (storageOk : Bool) : Option QueueError × QueueState :=
  if item_ids.isEmpty then (none, q)
  else if storageOk then
    (none, { q with items := q.items.map (fun it =>
        if item_ids.contains it.id then
          { it with retry_count := it.retry_count + 1, last_retry_at := some now }
        else it) })
  else (none, q)

/-! ### Facts about the dequeue order -/

theorem dequeueLe_trans (a b c : QueueItem) (h1 : dequeueLe a b) (h2 : dequeueLe b c) :
    dequeueLe a c := by
  simp only [dequeueLe, Bool.or_eq_true, Bool.and_eq_true, decide_eq_true_iff] at h1 h2 ⊢
  rcases h1 with h1 | ⟨h1, h1'⟩ <;> rcases h2 with h2 | ⟨h2, h2'⟩
  · exact Or.inl (Nat.lt_trans h1 h2)
  · exact Or.inl (h2 ▸ h1)
  · exact Or.inl (h1 ▸ h2)
  · exact Or.inr ⟨h1.trans h2, tsLe_trans h1' h2'⟩

theorem dequeueLe_total (a b : QueueItem) : dequeueLe a b || dequeueLe b a := by
  simp only [dequeueLe, Bool.or_eq_true, Bool.and_eq_true, decide_eq_true_iff]
  rcases Nat.lt_trichotomy a.priority b.priority with h | h | h
  · exact Or.inl (Or.inl h)
  · rcases tsLt_total a.created_at b.created_at with h' | h' | h'
    · exact Or.inl (Or.inr ⟨h, by simp [tsLe, h']⟩)
    · exact Or.inr (Or.inr ⟨h.symm, by simp [tsLe, h']⟩)
    · exact Or.inl (Or.inr ⟨h, by simp [tsLe, h']⟩)
  · exact Or.inr (Or.inl h)

/-- A submission row never compares `dequeueLe`-after an analytics row. -/
theorem dequeueLe_analytics_submission (a s : QueueItem)
    (ha : a.item_type = .ANALYTICS_RECORD) (hs : s.item_type = .PORTAL_SUBMISSION) :
    dequeueLe a s = false := by
  simp [dequeueLe, QueueItem.priority, ha, hs, QueueItemType.value]

/-- C1: for every queue state and every batch size, `dequeue_batch` returns at
most `batch_size` items, ordered by `(priority asc, createdAt asc)` — hence
within one kind in `createdAt` order and never an Analytics row ahead of a
Submission row — every still-queued Submission row is contained in any batch
that contains an Analytics row, and the call removes nothing from the queue. -/
theorem dequeue_batch_spec (q : QueueState) (batch_size : Nat) (readOk : Bool) :
    (dequeue_batch q batch_size readOk).2 = q ∧
    (dequeue_batch_rows q batch_size).length ≤ batch_size ∧
    (dequeue_batch_rows q batch_size).Pairwise (fun a b => dequeueLe a b = true) ∧
    (dequeue_batch_rows q batch_size).Pairwise
      (fun a b => a.item_type = b.item_type → tsLe a.created_at b.created_at = true) ∧
    (dequeue_batch_rows q batch_size).Pairwise
      (fun a b => ¬(a.item_type = .ANALYTICS_RECORD ∧ b.item_type = .PORTAL_SUBMISSION)) ∧
    (∀ a ∈ dequeue_batch_rows q batch_size, a.item_type = .ANALYTICS_RECORD →
      ∀ s ∈ q.items, s.item_type = .PORTAL_SUBMISSION →
        s ∈ dequeue_batch_rows q batch_size) := by
  have hsorted : (q.items.mergeSort dequeueLe).Pairwise (fun a b => dequeueLe a b = true) := by
    simpa using List.sorted_mergeSort dequeueLe_trans dequeueLe_total q.items
  have hpw : (dequeue_batch_rows q batch_size).Pairwise (fun a b => dequeueLe a b = true) :=
    hsorted.sublist (List.take_sublist batch_size _)
  refine ⟨?_, ?_, hpw, ?_, ?_, ?_⟩
  · cases readOk <;> rfl
  · exact Nat.le_trans (Nat.le_of_eq (List.length_take batch_size _)) (Nat.min_le_left _ _)
  · refine hpw.imp ?_
    intro a b hab htype
    simp only [dequeueLe, Bool.or_eq_true, Bool.and_eq_true, decide_eq_true_iff] at hab
    rcases hab with hab | ⟨_, hab⟩
    · exact absurd hab (by simp [QueueItem.priority, htype])
    · exact hab
  · refine hpw.imp ?_
    intro a b hab ⟨ha, hb⟩
    rw [dequeueLe_analytics_submission a b ha hb] at hab
    cases hab
  · intro a hamem ha s hsq hs
    have hsplit := List.take_append_drop batch_size (q.items.mergeSort dequeueLe)
    have hpw2 : ((q.items.mergeSort dequeueLe).take batch_size ++
        (q.items.mergeSort dequeueLe).drop batch_size).Pairwise (fun a b => dequeueLe a b = true) := by
      rw [hsplit]; exact hsorted
    have hcross := (List.pairwise_append.mp hpw2).2.2
    have hsmem : s ∈ q.items.mergeSort dequeueLe := List.mem_mergeSort.mpr hsq
    rw [← hsplit] at hsmem
    rcases List.mem_append.mp hsmem with hin | hin
    · exact hin
    · exfalso
      have := hcross a hamem s hin
      rw [dequeueLe_analytics_submission a s ha hs] at this
      cases this

/-! ### Facts about the oldest-analytics selection -/

/-- The `foldl` step of `minByCreated`. -/
theorem foldl_pickOlder_spec (l : List QueueItem) (acc : QueueItem) :
    (l.foldl (fun best it => if tsLt it.created_at best.created_at then it else best) acc = acc ∨
      l.foldl (fun best it => if tsLt it.created_at best.created_at then it else best) acc ∈ l) ∧
    tsLe (l.foldl (fun best it => if tsLt it.created_at best.created_at then it else best) acc).created_at
      acc.created_at = true ∧
    ∀ x ∈ l,
      tsLe (l.foldl (fun best it => if tsLt it.created_at best.created_at then it else best) acc).created_at
        x.created_at = true := by
  induction l generalizing acc with
  | nil => simp [tsLe_refl]
  | cons y ys ih =>
    simp only [List.foldl_cons]
    obtain ⟨hmem, hacc, hall⟩ := ih (if tsLt y.created_at acc.created_at then y else acc)
    have hpick1 : tsLe (if tsLt y.created_at acc.created_at then y else acc).created_at
        acc.created_at = true := by
      by_cases hc : tsLt y.created_at acc.created_at = true
      · simp [hc, tsLe]
      · simp [Bool.eq_false_iff.mpr hc, tsLe_refl]
    have hpick2 : tsLe (if tsLt y.created_at acc.created_at then y else acc).created_at
        y.created_at = true := by
      by_cases hc : tsLt y.created_at acc.created_at = true
      · simp [hc, tsLe_refl]
      · simp only [Bool.eq_false_iff.mpr hc, if_neg (Bool.eq_false_iff.mp (Bool.eq_false_iff.mpr hc))]
        exact tsLe_of_not_lt (Bool.eq_false_iff.mpr hc)
    refine ⟨?_, tsLe_trans hacc hpick1, ?_⟩
    · rcases hmem with h | h
      · rw [h]
        by_cases hc : tsLt y.created_at acc.created_at = true
        · simp only [hc, if_pos rfl]
          exact Or.inr (List.mem_cons_self _ _)
        · simp only [Bool.eq_false_iff.mpr hc, if_neg (Bool.eq_false_iff.mp (Bool.eq_false_iff.mpr hc))]
          exact Or.inl rfl
      · exact Or.inr (List.mem_cons_of_mem _ h)
    · intro x hx
      rcases List.mem_cons.mp hx with rfl | hx
      · exact tsLe_trans hacc hpick2
      · exact hall x hx

/-- `minByCreated` returns a member attaining the minimal `created_at`. -/
theorem minByCreated_spec (l : List QueueItem) (m : QueueItem) (h : minByCreated l = some m) :
    m ∈ l ∧ ∀ x ∈ l, tsLe m.created_at x.created_at = true := by
  cases l with
  | nil => cases h
  | cons x xs =>
    simp only [minByCreated, Option.some_inj] at h
    subst h
    obtain ⟨hmem, hacc, hall⟩ := foldl_pickOlder_spec xs x
    refine ⟨?_, ?_⟩
    · rcases hmem with h | h
      · rw [h]; exact List.mem_cons_self _ _
      · exact List.mem_cons_of_mem _ h
    · intro z hz
      rcases List.mem_cons.mp hz with rfl | hz
      · exact hacc
      · exact hall z hz

/-- Deleting the row with id `old.id` from a table with pairwise-distinct ids
removes exactly one row satisfying `p` (namely `old`). -/
theorem countP_filter_ne_id (l : List QueueItem) (old : QueueItem) (p : QueueItem → Bool)
    (hn : (l.map QueueItem.id).Nodup) (hm : old ∈ l) (hp : p old = true) :
    (l.filter (fun it => it.id != old.id)).countP p = l.countP p - 1 := by
  induction l with
  | nil => cases hm
  | cons x xs ih =>
    simp only [List.map_cons, List.nodup_cons] at hn
    obtain ⟨hx, hxs⟩ := hn
    rcases List.mem_cons.mp hm with heq | hmem
    · subst heq
      have hfx : (old.id != old.id) = false := by simp
      have hrest : xs.filter (fun it => it.id != old.id) = xs := by
        apply List.filter_eq_self.mpr
        intro a ha
        have hne : a.id ≠ old.id := by
          intro hcontra
          apply hx
          rw [← hcontra]
          exact List.mem_map_of_mem QueueItem.id ha
        simpa using hne
      simp [List.filter_cons, hfx, hrest, List.countP_cons, hp]
    · have hxid : (x.id != old.id) = true := by
        have hne : x.id ≠ old.id := by
          intro hcontra
          apply hx
          rw [hcontra]
          exact List.mem_map_of_mem QueueItem.id hmem
        simpa using hne
      have hpos : 0 < xs.countP p :=
        List.countP_pos_iff.mpr ⟨old, hmem, hp⟩
      have hih := ih hxs hmem
      rw [List.filter_cons, if_pos hxid, List.countP_cons, List.countP_cons, hih]
      omega

/-- C5 (amended): whenever the Submission count is at (or above) the
Submission capacity *and the capacity `COUNT(*)` query succeeds*,
`enqueue_submission` fails with the capacity error and the queue state is
returned unchanged — nothing is inserted and no count changes.  (When the
count query hits a storage error it is swallowed and read as 0, and the
insert proceeds; see the counterexample.) -/
theorem enqueue_submission_full (q : QueueState) (s : String) (now : Timestamp)
    (env : StoreEnv) (hcount : env.countOk = true)
    (h : MAX_SUBMISSIONS ≤ get_submission_count q) :
    enqueue_submission q s now env = (some .capacityError, q) := by
  simp [enqueue_submission, hcount, h]

/-- A concrete submission row with id and timestamp `i`. -/
def subItem (i : Nat) : QueueItem :=
  { id := i, item_type := .PORTAL_SUBMISSION, data := "s",
    created_at := ⟨2026, 1, 1, i⟩, retry_count := 0, last_retry_at := none }

/-- A queue holding exactly `MAX_SUBMISSIONS` submission rows. -/
def fullSubmissionQueue : QueueState :=
  { items := (List.range 1000).map subItem, nextId := 1000 }

theorem fullSubmissionQueue_items :
    fullSubmissionQueue.items = (List.range 1000).map subItem := by
  simp only [fullSubmissionQueue]

theorem get_submission_count_fullSubmissionQueue :
    get_submission_count fullSubmissionQueue = 1000 := by
  have h : ∀ a ∈ fullSubmissionQueue.items, (a.item_type == QueueItemType.PORTAL_SUBMISSION) = true := by
    intro a ha
    rw [fullSubmissionQueue_items] at ha
    obtain ⟨i, -, rfl⟩ := List.mem_map.mp ha
    rfl
  have h3 : fullSubmissionQueue.items.length = 1000 := by
    rw [fullSubmissionQueue_items, List.length_map, List.length_range]
  exact (List.countP_eq_length.mpr h).trans h3

theorem enqueue_submission_full_witness :
    enqueue_submission fullSubmissionQueue "x" ⟨2026, 1, 2, 0⟩ {} =
      (some .capacityError, fullSubmissionQueue) :=
  enqueue_submission_full fullSubmissionQueue "x" ⟨2026, 1, 2, 0⟩ {} rfl
    (by rw [get_submission_count_fullSubmissionQueue]; decide)

/-- The oracle in which the capacity `COUNT(*)` transaction fails (the
helper swallows the exception and reports 0) while everything else
succeeds. -/
def countFailEnv : StoreEnv := { countOk := false }

/-- C5 counterexample: at capacity, a storage failure in the capacity count
query is swallowed — the count is read as 0, no capacity error is raised,
and the insert proceeds normally, leaving the queue *over* capacity with a
normal return.  This refutes the unconditional claim that enqueueing a
Submission at capacity always fails with a capacity error and inserts
nothing. -/
theorem enqueue_submission_count_error_cex :
    MAX_SUBMISSIONS ≤ get_submission_count fullSubmissionQueue ∧
    enqueue_submission fullSubmissionQueue "x" ⟨2026, 1, 2, 0⟩ countFailEnv =
      (none, insertItem fullSubmissionQueue .PORTAL_SUBMISSION "x" ⟨2026, 1, 2, 0⟩) ∧
    get_submission_count
        (insertItem fullSubmissionQueue .PORTAL_SUBMISSION "x" ⟨2026, 1, 2, 0⟩) =
      MAX_SUBMISSIONS + 1 := by
  refine ⟨by rw [get_submission_count_fullSubmissionQueue]; decide, rfl, ?_⟩
  have h2 : List.countP (fun it => it.item_type == QueueItemType.PORTAL_SUBMISSION)
      [({ id := fullSubmissionQueue.nextId, item_type := QueueItemType.PORTAL_SUBMISSION,
          data := "x", created_at := ⟨2026, 1, 2, 0⟩, retry_count := 0,
          last_retry_at := none } : QueueItem)] = 1 := rfl
  show List.countP _ (fullSubmissionQueue.items ++ _) = MAX_SUBMISSIONS + 1
  rw [List.countP_append, h2]
  exact congrArg (fun n => n + 1) get_submission_count_fullSubmissionQueue

/-- C6 (amended): `enqueue_analytics` never fails with a capacity error
(under every storage outcome); below capacity (count query succeeding) it
simply appends the new row; at capacity, *when the count query and the
eviction delete succeed*, it first deletes the analytics row of minimal
`created_at` and then inserts, so (for a table with distinct row ids, as
SQLite's primary key guarantees) the analytics count is preserved, exactly
the oldest analytics row is gone and every other row survives.  (A swallowed
count-query or eviction failure lets the insert push the count to C+1; see
the counterexample.) -/
theorem enqueue_analytics_spec (q : QueueState) (record : String) (now : Timestamp)
    (hids : (q.items.map QueueItem.id).Nodup)
    (hlt : ∀ it ∈ q.items, it.id < q.nextId) :
    (∀ env : StoreEnv, (enqueue_analytics q record now env).1 ≠ some .capacityError) ∧
    (get_analytics_count q < MAX_ANALYTICS_RECORDS →
      enqueue_analytics q record now {} = (none, insertItem q .ANALYTICS_RECORD record now)) ∧
    (get_analytics_count q = MAX_ANALYTICS_RECORDS →
      ∃ old, oldestAnalytics q = some old ∧
        old ∈ q.items ∧ old.item_type = .ANALYTICS_RECORD ∧
        (∀ x ∈ q.items, x.item_type = .ANALYTICS_RECORD →
          tsLe old.created_at x.created_at = true) ∧
        get_analytics_count (enqueue_analytics q record now {}).2 = MAX_ANALYTICS_RECORDS ∧
        old ∉ (enqueue_analytics q record now {}).2.items ∧
        (∀ x ∈ q.items, x ≠ old → x ∈ (enqueue_analytics q record now {}).2.items) ∧
        ({ id := q.nextId, item_type := .ANALYTICS_RECORD, data := record,
           created_at := now, retry_count := 0, last_retry_at := none } : QueueItem)
          ∈ (enqueue_analytics q record now {}).2.items) := by
  refine ⟨?_, ?_, ?_⟩
  · intro env
    obtain ⟨c, d, i⟩ := env
    cases i <;> simp [enqueue_analytics]
  · intro h
    simp [enqueue_analytics, Nat.not_le.mpr h]
  · intro h
    have hlen : (analyticsRows q).length = MAX_ANALYTICS_RECORDS := by
      rw [← h, get_analytics_count, countType, List.countP_eq_length_filter]
      rfl
    obtain ⟨old, hold⟩ : ∃ old, oldestAnalytics q = some old := by
      unfold oldestAnalytics
      cases hrows : analyticsRows q with
      | nil => rw [hrows] at hlen; simp [MAX_ANALYTICS_RECORDS] at hlen
      | cons x xs => exact ⟨_, rfl⟩
    obtain ⟨holdmem, holdmin⟩ := minByCreated_spec _ _ hold
    have holdq : old ∈ q.items := (List.mem_filter.mp holdmem).1
    have holdty : old.item_type = .ANALYTICS_RECORD := by
      have := (List.mem_filter.mp holdmem).2
      simpa using this
    have henq : enqueue_analytics q record now {} =
        (none, insertItem (drop_oldest_analytics q true) .ANALYTICS_RECORD record now) := by
      simp [enqueue_analytics, h]
    have hdrop : drop_oldest_analytics q true =
        { q with items := q.items.filter (fun it => it.id != old.id) } := by
      rw [drop_oldest_analytics, if_pos rfl, hold]
    refine ⟨old, hold, holdq, holdty, ?_, ?_, ?_, ?_, ?_⟩
    · intro x hx hty
      exact holdmin x (List.mem_filter.mpr ⟨hx, by simp [hty]⟩)
    · rw [henq]
      show get_analytics_count (insertItem (drop_oldest_analytics q true) .ANALYTICS_RECORD record now) =
        MAX_ANALYTICS_RECORDS
      rw [hdrop]
      simp only [insertItem, get_analytics_count, countType, List.countP_append]
      rw [countP_filter_ne_id q.items old
        (fun it => it.item_type == QueueItemType.ANALYTICS_RECORD) hids holdq (by simp [holdty])]
      have hpos : 0 < q.items.countP (fun it => it.item_type == QueueItemType.ANALYTICS_RECORD) :=
        List.countP_pos_iff.mpr ⟨old, holdq, by simp [holdty]⟩
      have hcount : q.items.countP (fun it => it.item_type == QueueItemType.ANALYTICS_RECORD) =
          MAX_ANALYTICS_RECORDS := h
      have hone : List.countP (fun it => it.item_type == QueueItemType.ANALYTICS_RECORD)
          [({ id := q.nextId, item_type := QueueItemType.ANALYTICS_RECORD, data := record,
              created_at := now, retry_count := 0, last_retry_at := none } : QueueItem)] = 1 := rfl
      rw [hone, hcount]
      omega
    · rw [henq, hdrop]
      intro hcontra
      simp only [insertItem, List.mem_append] at hcontra
      rcases hcontra with hcontra | hcontra
      · have := (List.mem_filter.mp hcontra).2
        simp at this
      · have hid := hlt old holdq
        simp only [List.mem_singleton] at hcontra
        rw [hcontra] at hid
        simp at hid
    · intro x hx hne
      rw [henq, hdrop]
      simp only [insertItem, List.mem_append]
      left
      refine List.mem_filter.mpr ⟨hx, bne_iff_ne.mpr (fun hid => ?_)⟩
      exact hne (List.inj_on_of_nodup_map hids hx holdq hid)
    · rw [henq, hdrop]
      simp [insertItem]

/-- A concrete analytics row with id and timestamp `i`. -/
def anaItem (i : Nat) : QueueItem :=
  { id := i, item_type := .ANALYTICS_RECORD, data := "a",
    created_at := ⟨2026, 1, 1, i⟩, retry_count := 0, last_retry_at := none }

/-- A queue holding exactly `MAX_ANALYTICS_RECORDS` analytics rows with
distinct ids and increasing timestamps. -/
def fullAnalyticsQueue : QueueState :=
  { items := (List.range 10000).map anaItem, nextId := 10000 }

theorem fullAnalyticsQueue_items :
    fullAnalyticsQueue.items = (List.range 10000).map anaItem := by
  simp only [fullAnalyticsQueue]

theorem fullAnalyticsQueue_nextId : fullAnalyticsQueue.nextId = 10000 := by
  simp only [fullAnalyticsQueue]

theorem fullAnalyticsQueue_ids_nodup :
    (fullAnalyticsQueue.items.map QueueItem.id).Nodup := by
  rw [fullAnalyticsQueue_items, List.map_map]
  have hfun : (QueueItem.id ∘ anaItem) = id := rfl
  rw [hfun, List.map_id]
  exact List.nodup_range 10000

theorem fullAnalyticsQueue_ids_lt :
    ∀ it ∈ fullAnalyticsQueue.items, it.id < fullAnalyticsQueue.nextId := by
  intro it hit
  rw [fullAnalyticsQueue_items] at hit
  obtain ⟨i, hi, rfl⟩ := List.mem_map.mp hit
  rw [fullAnalyticsQueue_nextId]
  simpa [anaItem] using List.mem_range.mp hi

theorem get_analytics_count_fullAnalyticsQueue :
    get_analytics_count fullAnalyticsQueue = 10000 := by
  have h : ∀ a ∈ fullAnalyticsQueue.items, (a.item_type == QueueItemType.ANALYTICS_RECORD) = true := by
    intro a ha
    rw [fullAnalyticsQueue_items] at ha
    obtain ⟨i, -, rfl⟩ := List.mem_map.mp ha
    rfl
  have h3 : fullAnalyticsQueue.items.length = 10000 := by
    rw [fullAnalyticsQueue_items, List.length_map, List.length_range]
  exact (List.countP_eq_length.mpr h).trans h3

theorem enqueue_analytics_spec_witness :
    get_analytics_count
      (enqueue_analytics fullAnalyticsQueue "new" ⟨2026, 1, 2, 0⟩ {}).2 =
      MAX_ANALYTICS_RECORDS := by
  obtain ⟨-, -, h3⟩ := enqueue_analytics_spec fullAnalyticsQueue "new" ⟨2026, 1, 2, 0⟩
    fullAnalyticsQueue_ids_nodup fullAnalyticsQueue_ids_lt
  obtain ⟨old, -, -, -, -, hcount, -⟩ :=
    h3 (by rw [get_analytics_count_fullAnalyticsQueue]; rfl)
  exact hcount

/-- C6 counterexample: at capacity, a storage failure in the analytics count
query is swallowed — the count is read as 0, no eviction happens, and the
insert proceeds, leaving C+1 analytics rows with all prior rows (the oldest
included) still present.  This refutes the claim that enqueueing at capacity
C always evicts the oldest item first and leaves the count at C.  (A
swallowed eviction-delete failure, `dropOk = false`, reaches the same
over-capacity state.) -/
theorem enqueue_analytics_count_error_cex :
    get_analytics_count fullAnalyticsQueue = MAX_ANALYTICS_RECORDS ∧
    enqueue_analytics fullAnalyticsQueue "x" ⟨2026, 1, 2, 0⟩ countFailEnv =
      (none, insertItem fullAnalyticsQueue .ANALYTICS_RECORD "x" ⟨2026, 1, 2, 0⟩) ∧
    get_analytics_count
        (insertItem fullAnalyticsQueue .ANALYTICS_RECORD "x" ⟨2026, 1, 2, 0⟩) =
      MAX_ANALYTICS_RECORDS + 1 := by
  refine ⟨by rw [get_analytics_count_fullAnalyticsQueue]; rfl, rfl, ?_⟩
  have h2 : List.countP (fun it => it.item_type == QueueItemType.ANALYTICS_RECORD)
      [({ id := fullAnalyticsQueue.nextId, item_type := QueueItemType.ANALYTICS_RECORD,
          data := "x", created_at := ⟨2026, 1, 2, 0⟩, retry_count := 0,
          last_retry_at := none } : QueueItem)] = 1 := rfl
  show List.countP _ (fullAnalyticsQueue.items ++ _) = MAX_ANALYTICS_RECORDS + 1
  rw [List.countP_append, h2]
  exact congrArg (fun n => n + 1) get_analytics_count_fullAnalyticsQueue

/-! ### C7: propagation of storage-layer errors -/

/-- A one-row queue used as the concrete counterexample state. -/
def exQueue7 : QueueState :=
  { items := [{ id := 1, item_type := .PORTAL_SUBMISSION, data := "d",
                created_at := ⟨2026, 1, 1, 0⟩, retry_count := 0, last_retry_at := none }],
    nextId := 2 }

/-- C7 counterexample: a storage failure inside `mark_synced` is caught and
only logged — the call returns normally (no error) with the queue unchanged,
so the row with the given id is still present.  The claim that every
storage-layer error in `markSynced` propagates as a `StorageError` is false. -/
theorem mark_synced_swallows_storage_error :
    mark_synced exQueue7 [1] false = (none, exQueue7) ∧
    ∃ it ∈ exQueue7.items, it.id = 1 := by
  constructor
  · rfl
  · exact ⟨_, List.mem_cons_self _ _, rfl⟩

/-- C7 (amended): a storage failure in the *insert* transaction of
`enqueue_analytics` / `enqueue_submission` propagates as a `StorageError`,
but a storage failure in the capacity/count query inside enqueue is swallowed
(the count is read as 0) and the call returns normally after inserting; and
`mark_synced` / `mark_failed` catch and swallow every storage failure,
returning normally with the queue unchanged — a normal return from them does
not imply the update was applied.  When storage succeeds, `mark_synced` does
delete every given id. -/
theorem queue_storage_error_propagation (q : QueueState) (r s : String)
    (now : Timestamp) (ids : List Nat) :
    (∀ countOk dropOk,
      (enqueue_analytics q r now ⟨countOk, dropOk, false⟩).1 = some .storageError) ∧
    (get_submission_count q < MAX_SUBMISSIONS → ∀ countOk dropOk,
      (enqueue_submission q s now ⟨countOk, dropOk, false⟩).1 = some .storageError) ∧
    (enqueue_submission q s now ⟨false, true, true⟩).1 = none ∧
    mark_synced q ids false = (none, q) ∧
    mark_failed q ids now false = (none, q) ∧
    (mark_synced q ids true).1 = none ∧
    (∀ it ∈ (mark_synced q ids true).2.items, ids.contains it.id = false) := by
  refine ⟨?_, ?_, ?_, ?_, ?_, ?_, ?_⟩
  · intro countOk dropOk
    simp [enqueue_analytics]
  · intro h countOk dropOk
    cases countOk with
    | true => simp [enqueue_submission, Nat.not_le.mpr h]
    | false => simp [enqueue_submission, MAX_SUBMISSIONS]
  · simp [enqueue_submission, MAX_SUBMISSIONS]
  · cases h : ids.isEmpty <;> simp [mark_synced, h]
  · cases h : ids.isEmpty <;> simp [mark_failed, h]
  · cases h : ids.isEmpty <;> simp [mark_synced, h]
  · intro it hit
    by_cases h : ids.isEmpty = true
    · rw [List.isEmpty_iff.mp h]
      rfl
    · have hms : (mark_synced q ids true).2.items =
          q.items.filter (fun it => !(ids.contains it.id)) := by
        simp [mark_synced, h]
      rw [hms] at hit
      have hf := List.of_mem_filter hit
      simpa using hf

/-- The empty queue. -/
def emptyQueue : QueueState := { items := [], nextId := 1 }

theorem queue_storage_error_propagation_witness :
    (enqueue_submission emptyQueue "s" ⟨2026, 1, 1, 0⟩ ⟨true, true, false⟩).1 =
      some .storageError := by
  obtain ⟨-, h2, -⟩ :=
    queue_storage_error_propagation emptyQueue "a" "s" ⟨2026, 1, 1, 0⟩ []
  exact h2 (by decide) true true

/-! ### C9: `cleanup_old_records` -/

/-- A calendar date (the `datetime.utcnow()` date components). -/
structure Date where
  year : Nat
  month : Nat
  day : Nat
deriving DecidableEq, Repr

/-- `cleanup_old_records`: the cutoff is *midnight UTC today* with the
`day` field replaced by `day - days` (`cutoff_date.replace(day=cutoff_date.day
- days)`).  When `day - days < 1` that `replace` call raises `ValueError`,
which the surrounding `except` swallows, returning 0 with nothing deleted.
Otherwise rows with `created_at < cutoff` (an ISO-string comparison) are
deleted and their number returned. -/
def cleanup_old_records (today : Date) (days : Nat) (q : QueueState) :
    Nat × QueueState :=
  if 1 ≤ today.day - days then
    let cutoff : Timestamp := ⟨today.year, today.month, today.day - days, 0⟩
    ((q.items.filter (fun it => tsLt it.created_at cutoff)).length,
     { q with items := q.items.filter (fun it => !(tsLt it.created_at cutoff)) })
  else (0, q)

/-- A queue holding one analytics row created 2026-09-01, far older than any
seven-day retention window. -/
def staleQueue : QueueState :=
  { items := [{ id := 1, item_type := .ANALYTICS_RECORD, data := "d",
                created_at := ⟨2026, 9, 1, 0⟩, retry_count := 0, last_retry_at := none }],
    nextId := 2 }

/-- C9 failing input: on 2026-10-05 with `days = 7`, the code computes
`day - days = -2`, `replace` raises, and the call returns 0 deleting nothing —
even though the queued row (created 2026-09-01) predates the seven-day cutoff
2026-09-28, so the claimed semantics would delete it. -/
theorem cleanup_day_underflow :
    cleanup_old_records ⟨2026, 10, 5⟩ 7 staleQueue = (0, staleQueue) ∧
    tsLt (⟨2026, 9, 1, 0⟩ : Timestamp) ⟨2026, 9, 28, 0⟩ = true := by
  decide

/-! ## Device configuration model (`config.py`) -/

/-- A backend `configuration` JSON object, as consumed by
`cache_configuration` (which reads `config_version`, defaulting to 1 when the
key is absent) and by the heartbeat handler (which reads `wifi_ssid`); the
rest of the object is opaque. -/
structure ConfigurationMsg where
  config_version : Option Int := none
  wifi_ssid : Option String := none
  payload : String := ""
deriving DecidableEq, Repr

/-- The in-memory `Config` object.  On-disk persistence of these fields
(`save_device_config` / `load`) is declared out of scope by the spec; the
save calls either succeed or re-raise after the in-memory fields are set. -/
structure Config where
  device_id : Option Int := none
  device_serial : Option String := none
  device_token : Option String := none
  backend_url : String := "https://crowdsurfer.politiquera.com"
  heartbeat_interval : Int := 60
  analytics_sync_interval : Int := 120
  event_config : Option ConfigurationMsg := none
  config_version : Option Int := none
  wifi_ssid : Option String := none
deriving DecidableEq, Repr

/-- `Config.is_registered`: `self.device_token is not None`. -/
def is_registered (cfg : Config) : Bool := cfg.device_token.isSome

/-- `Config.save_event_config` (in-memory effect: the cached configuration
and its version are replaced; the file write precedes the field updates and
re-raises on failure before they happen). -/
def save_event_config (cfg : Config) (config_data : ConfigurationMsg) (version : Int) :
    Config :=
  { cfg with event_config := some config_data, config_version := some version }

/-- `Config.clear_event_config`. -/
def clear_event_config (cfg : Config) : Config :=
  { cfg with event_config := none, config_version := none }

/-- `Config.wipe_device_data`: clears the token and the device id, clears the
cached event configuration, preserves the serial. -/
def wipe_device_data (cfg : Config) : Config :=
  clear_event_config { cfg with device_token := none, device_id := none }

/-- `has_token` as computed at the top of `send_heartbeat`:
`self.config.device_token is not None and self.config.device_token != ""`. -/
def has_token (cfg : Config) : Bool :=
  match cfg.device_token with
  | some t => t != ""
  | none => false

/-- The token-provisioning / rotation block of `send_heartbeat` (runs on an
HTTP-200 response body): an absent `device_token` key leaves the config
alone; a present one is stored if the device had no usable token, or if it
differs from the stored token. -/
def heartbeat_token_update (cfg : Config) (tok : Option String) : Config :=
  match tok with
  | none => cfg
  | some t =>
    if !(has_token cfg) then { cfg with device_token := some t }
    else if t != cfg.device_token.getD "" then { cfg with device_token := some t }
    else cfg

/-- `ManagementAgent.cache_configuration`.  `version` is
`config.get('config_version', 1)`.  The guard
`if self.config.config_version and version <= self.config.config_version`
uses Python truthiness, so a cached version of `None` — or of `0` — skips
the guard.  `saveOk` is the oracle for the `save_event_config` file write,
whose failure is caught and reported as `False` with the in-memory state
unchanged. -/
def cache_configuration (cfg : Config) (config : ConfigurationMsg) (saveOk : Bool) :
    Bool × Config :=
  let version := config.config_version.getD 1
  match cfg.config_version with
  | some v =>
    if v ≠ 0 ∧ version ≤ v then (true, cfg)
    else if saveOk then (true, save_event_config cfg config version) else (false, cfg)
  | none =>
    if saveOk then (true, save_event_config cfg config version) else (false, cfg)

/-- A sequence of `cache_configuration` calls, each with its own save
outcome, acting on the config state. -/
def cache_seq (cfg : Config) (cs : List (ConfigurationMsg × Bool)) : Config :=
  cs.foldl (fun acc cb => (cache_configuration acc cb.1 cb.2).2) cfg

/-! ### C8: the registration predicate -/

/-- A config whose stored credential is the empty string. -/
def emptyTokenConfig : Config := { device_token := some "" }

/-- C8 counterexample: with `device_token = ""` the predicate `is_registered`
returns `true` although the credential is not a non-empty string, refuting
the claimed equivalence `Registered ↔ credential non-empty`. -/
theorem is_registered_empty_token_cex :
    is_registered emptyTokenConfig = true ∧ emptyTokenConfig.device_token = some "" := by
  decide

/-- C8 (amended): `is_registered` holds iff a credential is *present*
(`device_token is not None`); an empty-string credential still counts as
registered.  Wiping clears credential, device id and cached configuration,
preserves the serial and makes the device unregistered; storing a token
delivered in a heartbeat response (provisioning or rotation) leaves the
device registered, and an absent token field does not change registration. -/
theorem is_registered_iff_token_present (cfg : Config) (t : String) :
    (is_registered cfg = true ↔ cfg.device_token ≠ none) ∧
    is_registered (wipe_device_data cfg) = false ∧
    (wipe_device_data cfg).device_serial = cfg.device_serial ∧
    (wipe_device_data cfg).device_id = none ∧
    (wipe_device_data cfg).event_config = none ∧
    (wipe_device_data cfg).config_version = none ∧
    is_registered (heartbeat_token_update cfg (some t)) = true ∧
    is_registered (heartbeat_token_update cfg none) = is_registered cfg := by
  refine ⟨?_, ?_, ?_, ?_, ?_, ?_, ?_, ?_⟩
  · cases h : cfg.device_token <;> simp [is_registered, h]
  · rfl
  · rfl
  · rfl
  · rfl
  · rfl
  · simp only [heartbeat_token_update]
    split_ifs with h1 h2
    · simp [is_registered]
    · simp [is_registered]
    · unfold has_token at h1
      cases h : cfg.device_token with
      | none => rw [h] at h1; simp at h1
      | some s => simp [is_registered, h]
  · rfl

/-! ### C10: configuration-version monotonicity -/

/-- A one-call step: a *nonzero* cached version never decreases, whatever
configuration is offered and whether or not the save succeeds. -/
theorem cache_step_mono (cfg : Config) (v : Int) (h : cfg.config_version = some v)
    (hv : v ≠ 0) (c : ConfigurationMsg) (ok : Bool) :
    ∃ w, (cache_configuration cfg c ok).2.config_version = some w ∧ v ≤ w := by
  simp only [cache_configuration, h]
  by_cases hg : v ≠ 0 ∧ c.config_version.getD 1 ≤ v
  · rw [if_pos hg]
    exact ⟨v, h, le_refl v⟩
  · rw [if_neg hg]
    cases ok with
    | true =>
      refine ⟨c.config_version.getD 1, rfl, ?_⟩
      push_neg at hg
      have := hg hv
      omega
    | false => exact ⟨v, h, le_refl v⟩

/-- A one-call step from a *positive* cached version additionally stays
positive (needed to keep the truthiness guard armed along a sequence). -/
theorem cache_step_pos (cfg : Config) (v : Int) (h : cfg.config_version = some v)
    (hv : 0 < v) (c : ConfigurationMsg) (ok : Bool) :
    ∃ w, (cache_configuration cfg c ok).2.config_version = some w ∧ v ≤ w ∧ 0 < w := by
  obtain ⟨w, hw, hle⟩ := cache_step_mono cfg v h (by omega) c ok
  exact ⟨w, hw, hle, by omega⟩

/-- Folding `cache_step_pos` over a whole call sequence. -/
theorem cache_seq_mono (cs : List (ConfigurationMsg × Bool)) (cfg : Config) (v : Int)
    (h : cfg.config_version = some v) (hv : 0 < v) :
    ∃ w, (cache_seq cfg cs).config_version = some w ∧ v ≤ w ∧ 0 < w := by
  induction cs generalizing cfg v with
  | nil => exact ⟨v, h, le_refl v, hv⟩
  | cons cb rest ih =>
    obtain ⟨w1, hw1, hle1, hpos1⟩ := cache_step_pos cfg v h hv cb.1 cb.2
    obtain ⟨w, hw, hle, hpos⟩ := ih _ w1 hw1 hpos1
    exact ⟨w, hw, le_trans hle1 hle, hpos⟩

/-- C10 (amended): when the cached version exists and is *nonzero*, offering
a version less than or equal to it returns success with the configuration
state unchanged, and a single call never decreases the cached version; when
the cached version is moreover positive, it never decreases and stays
positive over any sequence of calls.  (From a negative cached version a
sequence can pass through 0, where the truthiness guard disarms — see the
counterexample.) -/
theorem cache_configuration_monotone (cfg : Config) (v : Int)
    (h : cfg.config_version = some v) (hv : v ≠ 0) :
    (∀ c ok, c.config_version.getD 1 ≤ v → cache_configuration cfg c ok = (true, cfg)) ∧
    (∀ c ok, ∃ w, (cache_configuration cfg c ok).2.config_version = some w ∧ v ≤ w) ∧
    (0 < v → ∀ cs : List (ConfigurationMsg × Bool), ∃ w,
      (cache_seq cfg cs).config_version = some w ∧ v ≤ w ∧ 0 < w) := by
  refine ⟨?_, fun c ok => cache_step_mono cfg v h hv c ok,
    fun hpos cs => cache_seq_mono cs cfg v h hpos⟩
  intro c ok hle
  simp only [cache_configuration, h]
  rw [if_pos ⟨hv, hle⟩]

/-- A cached state at version 5 and an offered configuration at version 3. -/
def cachedV5Config : Config :=
  { config_version := some 5, event_config := some { config_version := some 5 } }

theorem cache_configuration_monotone_witness :
    cache_configuration cachedV5Config { config_version := some 3 } true =
      (true, cachedV5Config) :=
  (cache_configuration_monotone cachedV5Config 5 rfl (by decide)).1
    { config_version := some 3 } true (by decide)

/-- The C10 counterexample state: cached version 0 (falsy in Python). -/
def cachedV0Config : Config :=
  { config_version := some 0, event_config := some { config_version := some 0, payload := "old" } }

/-- C10 counterexample: with cached version 0 the truthiness guard is
skipped, so offering a configuration with version −1 ≤ 0 *overwrites* the
cache — the call reports success but the cached configuration changes and the
stored version decreases from 0 to −1, refuting both parts of the claim. -/
theorem cache_configuration_version_zero_cex :
    cachedV0Config.config_version = some 0 ∧
    (({ config_version := some (-1), payload := "new" } : ConfigurationMsg).config_version.getD 1 ≤ 0) ∧
    (cache_configuration cachedV0Config { config_version := some (-1), payload := "new" } true).1 = true ∧
    (cache_configuration cachedV0Config { config_version := some (-1), payload := "new" } true).2.config_version = some (-1) ∧
    (cache_configuration cachedV0Config { config_version := some (-1), payload := "new" } true).2.event_config ≠
      cachedV0Config.event_config := by
  decide

/-! ## SSID reconciliation (`ManagementAgent.apply_ssid_configuration`) -/

/-- The ASCII whitespace characters removed by Python `str.strip()`. -/
def isSpaceChar (c : Char) : Bool :=
  c == ' ' || c == '\t' || c == '\n' || c == '\r' || c == '\x0b' || c == '\x0c'

/-- Python `str.strip()` as applied to configuration lines: drop leading and
trailing whitespace. -/
def pyStrip (s : String) : String :=
  ⟨((s.data.dropWhile isSpaceChar).reverse.dropWhile isSpaceChar).reverse⟩

/-- Whether the first character list is an initial segment of the second. -/
def listIsInit : List Char → List Char → Bool
  | [], _ => true
  | _ :: _, [] => false
  | a :: as, b :: bs => a == b && listIsInit as bs

/-- Python `str.startswith`. -/
def pyStartsWith (s pre : String) : Bool := listIsInit pre.data s.data

/-- The replacement loop of `apply_ssid_configuration`: every line whose
stripped form starts with `ssid=` becomes `ssid=<wifi_ssid>\n`; the Bool is
the `ssid_found` flag. -/
def replaceSsid (wifi_ssid : String) : List String → List String × Bool
  | [] => ([], false)
  | line :: rest =>
    if pyStartsWith (pyStrip line) "ssid=" then
      (("ssid=" ++ wifi_ssid ++ "\n") :: (replaceSsid wifi_ssid rest).1, true)
    else (line :: (replaceSsid wifi_ssid rest).1, (replaceSsid wifi_ssid rest).2)

/-- Outcome of reading `/etc/hostapd/hostapd.conf`. -/
inductive ReadOutcome where
  | ok
  | fileNotFound
  | permDenied
deriving DecidableEq, Repr

/-- Outcome of `subprocess.run(['systemctl', 'restart', 'hostapd'], ...)`. -/
inductive RestartOutcome where
  | exited (returncode : Nat)
  | timedOut
  | raised
deriving DecidableEq, Repr

/-- Oracle describing the I/O and subprocess outcomes during one
`apply_ssid_configuration` attempt: the read outcome, whether opening the
file for writing succeeds (PermissionError otherwise), the restart outcome,
and whether the rollback rewrite in the failure handlers succeeds. -/
structure SsidEnv where
  readResult : ReadOutcome
  writeOk : Bool
  restart : RestartOutcome
  rollbackOk : Bool
deriving DecidableEq, Repr

/-- `apply_ssid_configuration`, returning the `True`/`False` result together
with the file content after the attempt.  A failed read, a missing `ssid=`
line or a failed write leave the file untouched and return `False`.  After a
successful write, a restart exiting 0 commits; any other restart outcome
(non-zero exit, timeout, exception) triggers the rollback rewrite of the
original lines — whose own failure is caught and only logged, leaving the
new content on disk. -/
def apply_ssid_configuration (wifi_ssid : String) (file : List String) (env : SsidEnv) :
    Bool × List String :=
  match env.readResult with
  | .fileNotFound => (false, file)
  | .permDenied => (false, file)
  | .ok =>
    if !(replaceSsid wifi_ssid file).2 then (false, file)
    else if !env.writeOk then (false, file)
    else
      match env.restart with
      | .exited 0 => (true, (replaceSsid wifi_ssid file).1)
      | _ => if env.rollbackOk then (false, file) else (false, (replaceSsid wifi_ssid file).1)

/-- The SSID block of the heartbeat handler (`send_heartbeat`, response is
HTTP 200 and not revoked): a missing configuration or a missing `wifi_ssid`
key retains the current configuration; an unchanged SSID does nothing; a
changed SSID is applied, and only on success is `config.wifi_ssid` updated
and persisted. -/
def heartbeat_ssid_step (cfg : Config) (file : List String) (conf : Option ConfigurationMsg)
    (env : SsidEnv) : Config × List String :=
  match conf with
  | none => (cfg, file)
  | some c =>
    match c.wifi_ssid with
    | none => (cfg, file)
    | some new_ssid =>
      if cfg.wifi_ssid ≠ some new_ssid then
        if (apply_ssid_configuration new_ssid file env).1 then
          ({ cfg with wifi_ssid := some new_ssid },
            (apply_ssid_configuration new_ssid file env).2)
        else (cfg, (apply_ssid_configuration new_ssid file env).2)
      else (cfg, file)

/-- When the `ssid_found` flag is set, the replaced file contains the
requested `ssid=<value>` line. -/
theorem replaceSsid_found (s : String) (l : List String)
    (h : (replaceSsid s l).2 = true) :
    ("ssid=" ++ s ++ "\n") ∈ (replaceSsid s l).1 := by
  induction l with
  | nil => simp [replaceSsid] at h
  | cons line rest ih =>
    by_cases hc : pyStartsWith (pyStrip line) "ssid=" = true
    · simp [replaceSsid, hc]
    · simp only [replaceSsid, if_neg hc] at h ⊢
      exact List.mem_cons_of_mem _ (ih h)

/-- C3 (amended): a failure at the file-write step leaves the file untouched;
a failure at the restart step restores the pre-attempt bytes provided the
rollback rewrite itself succeeds; on success the file contains the requested
`ssid=` line.  `appliedRadioName` (`config.wifi_ssid`) is unchanged by any
failed attempt and set to the requested value by a successful one. -/
theorem apply_ssid_spec (ssid : String) (file : List String) (env : SsidEnv) (cfg : Config) :
    ((env.rollbackOk = true → (apply_ssid_configuration ssid file env).1 = false →
        (apply_ssid_configuration ssid file env).2 = file) ∧
     (env.writeOk = false → apply_ssid_configuration ssid file env = (false, file)) ∧
     ((apply_ssid_configuration ssid file env).1 = true →
        ("ssid=" ++ ssid ++ "\n") ∈ (apply_ssid_configuration ssid file env).2)) ∧
    (∀ c : ConfigurationMsg, c.wifi_ssid = some ssid →
      ((apply_ssid_configuration ssid file env).1 = false →
        (heartbeat_ssid_step cfg file (some c) env).1.wifi_ssid = cfg.wifi_ssid) ∧
      (cfg.wifi_ssid ≠ some ssid → (apply_ssid_configuration ssid file env).1 = true →
        (heartbeat_ssid_step cfg file (some c) env).1.wifi_ssid = some ssid)) := by
  obtain ⟨rr, w, rs, rb⟩ := env
  have hstep : ∀ c : ConfigurationMsg, c.wifi_ssid = some ssid →
      ((apply_ssid_configuration ssid file ⟨rr, w, rs, rb⟩).1 = false →
        (heartbeat_ssid_step cfg file (some c) ⟨rr, w, rs, rb⟩).1.wifi_ssid = cfg.wifi_ssid) ∧
      (cfg.wifi_ssid ≠ some ssid →
        (apply_ssid_configuration ssid file ⟨rr, w, rs, rb⟩).1 = true →
        (heartbeat_ssid_step cfg file (some c) ⟨rr, w, rs, rb⟩).1.wifi_ssid = some ssid) := by
    intro c hc
    constructor
    · intro hfail
      simp only [heartbeat_ssid_step, hc]
      by_cases he : cfg.wifi_ssid ≠ some ssid
      · rw [if_pos he, if_neg (by rw [hfail]; exact Bool.false_ne_true)]
      · rw [if_neg he]
    · intro hne htrue
      simp only [heartbeat_ssid_step, hc]
      rw [if_pos hne, if_pos htrue]
  refine ⟨⟨?_, ?_, ?_⟩, hstep⟩
  · intro hrb hfail
    subst hrb
    cases rr with
    | fileNotFound => rfl
    | permDenied => rfl
    | ok =>
      simp only [apply_ssid_configuration] at hfail ⊢
      by_cases hf : (replaceSsid ssid file).2 = true
      · rw [hf] at hfail ⊢
        simp only [Bool.not_true, Bool.false_eq_true, if_false] at hfail ⊢
        cases w with
        | false => rfl
        | true =>
          simp only [Bool.not_true, Bool.false_eq_true, if_false] at hfail ⊢
          cases rs with
          | exited n =>
            cases n with
            | zero => simp at hfail
            | succ m => rfl
          | timedOut => rfl
          | raised => rfl
      · rw [Bool.eq_false_iff.mpr hf] at hfail ⊢
        rfl
  · intro hw
    subst hw
    cases rr with
    | fileNotFound => rfl
    | permDenied => rfl
    | ok =>
      simp only [apply_ssid_configuration]
      by_cases hf : (replaceSsid ssid file).2 = true
      · rw [hf]
        rfl
      · rw [Bool.eq_false_iff.mpr hf]
        rfl
  · intro hok
    cases rr with
    | fileNotFound => simp [apply_ssid_configuration] at hok
    | permDenied => simp [apply_ssid_configuration] at hok
    | ok =>
      simp only [apply_ssid_configuration] at hok ⊢
      by_cases hf : (replaceSsid ssid file).2 = true
      · rw [hf] at hok ⊢
        simp only [Bool.not_true, Bool.false_eq_true, if_false] at hok ⊢
        cases w with
        | false => simp at hok
        | true =>
          simp only [Bool.not_true, Bool.false_eq_true, if_false] at hok ⊢
          cases rs with
          | exited n =>
            cases n with
            | zero => exact replaceSsid_found ssid file hf
            | succ m =>
              exfalso
              cases rb <;> simp at hok
          | timedOut => exfalso; cases rb <;> simp at hok
          | raised => exfalso; cases rb <;> simp at hok
      · rw [Bool.eq_false_iff.mpr hf] at hok
        simp at hok

/-- The environment of the C3 counterexample: restart exits 1 and the
rollback rewrite fails too. -/
def rollbackFailEnv : SsidEnv :=
  { readResult := .ok, writeOk := true, restart := .exited 1, rollbackOk := false }

/-- C3 counterexample: when the restart fails *and* the rollback rewrite
fails (its exception is caught and only logged), the attempt returns failure
but the on-disk file keeps the new content, which differs from the
pre-attempt content — refuting the unconditional claim that after any failed
attempt the file equals its prior bytes. -/
theorem apply_ssid_rollback_failure_cex :
    (apply_ssid_configuration "New" ["ssid=Old\n"] rollbackFailEnv).1 = false ∧
    (apply_ssid_configuration "New" ["ssid=Old\n"] rollbackFailEnv).2 = ["ssid=New\n"] ∧
    ("ssid=New\n" : String) ≠ "ssid=Old\n" := by
  decide

/-- The environment of the C3 witness: restart exits 1, rollback succeeds. -/
def rollbackOkEnv : SsidEnv :=
  { readResult := .ok, writeOk := true, restart := .exited 1, rollbackOk := true }

theorem apply_ssid_spec_witness :
    (apply_ssid_configuration "EventNet2" ["ssid=Old\n"] rollbackOkEnv).2 = ["ssid=Old\n"] ∧
    (heartbeat_ssid_step { wifi_ssid := some "Old" } ["ssid=Old\n"]
      (some { wifi_ssid := some "EventNet2" }) rollbackOkEnv).1.wifi_ssid = some "Old" := by
  obtain ⟨⟨h1, -, -⟩, h4⟩ :=
    apply_ssid_spec "EventNet2" ["ssid=Old\n"] rollbackOkEnv { wifi_ssid := some "Old" }
  exact ⟨h1 rfl (by decide), (h4 { wifi_ssid := some "EventNet2" } rfl).1 (by decide)⟩

/-! ## Heartbeat protocol (`ManagementAgent.send_heartbeat`) -/

/-- One command object from the response's `commands` list, together with the
oracles for the side effects its handler performs (`config_refresh` fetches a
configuration over the network — `fetch_result` — and caches it with save
outcome `fetch_save_ok`). -/
structure HBCommand where
  command_type : String
  firmware_url : Option String := none
  fetch_result : Option ConfigurationMsg := none
  fetch_save_ok : Bool := true
deriving DecidableEq, Repr

/-- `ManagementAgent.process_command`, restricted to its effect on the config
state (its returned status dictionary is only logged by `send_heartbeat`):
`config_refresh` fetches and caches a configuration, `wipe` wipes the device
data, and `restart` / `update_firmware` / unknown commands leave the config
untouched. -/
def process_command (cfg : Config) (cmd : HBCommand) : Config :=
  if cmd.command_type = "config_refresh" then
    match cmd.fetch_result with
    | some c => (cache_configuration cfg c cmd.fetch_save_ok).2
    | none => cfg
  else if cmd.command_type = "wipe" then wipe_device_data cfg
  else cfg

/-- The `for command in commands` loop of `send_heartbeat`. -/
def process_commands (cfg : Config) : List HBCommand → Config
  | [] => cfg
  | c :: cs => process_commands (process_command cfg c) cs

/-- The parsed JSON body of a heartbeat response.  `configuration = none`
also models a present-but-falsy value (the code tests
`if 'configuration' in data and data['configuration']`). -/
structure HBBody where
  device_token : Option String := none
  token_expires_at : Option String := none
  status : Option String := none
  revocation_reason : Option String := none
  configuration : Option ConfigurationMsg := none
  commands : List HBCommand := []
deriving DecidableEq, Repr

/-- `send_heartbeat`, modelled from the transport result onward (the request
side is `heartbeat_request` below).  `resp = none` models a transport
exception, caught by the outer handler: return `None`, no state change.
Otherwise the pair is the HTTP status code and the parsed body.  On HTTP 200
the token provisioning/rotation block runs first, then the revocation check
(wipe and return `None`), then the SSID block, then the commands loop, and
the body is returned.  On 401 — or any other non-200 status — the function
only logs and returns `None`, with no state change. -/
def send_heartbeat (cfg : Config) (file : List String) (resp : Option (Nat × HBBody))
    (env : SsidEnv) : Config × List String × Option HBBody :=
  match resp with
  | none => (cfg, file, none)
  | some (code, data) =>
    if code = 200 then
      let cfg1 := heartbeat_token_update cfg data.device_token
      if data.status = some "token_revoked" then
        (wipe_device_data cfg1, file, none)
      else
        (process_commands (heartbeat_ssid_step cfg1 file data.configuration env).1 data.commands,
         (heartbeat_ssid_step cfg1 file data.configuration env).2,
         some data)
    else (cfg, file, none)

theorem heartbeat_token_update_serial (cfg : Config) (tok : Option String) :
    (heartbeat_token_update cfg tok).device_serial = cfg.device_serial := by
  cases tok with
  | none => rfl
  | some t =>
    simp only [heartbeat_token_update]
    split_ifs <;> rfl

/-- A registered device state used in the C2 counterexample and witness. -/
def registeredConfig : Config :=
  { device_token := some "tok", device_id := some 7,
    device_serial := some "CS-SHAKA-V1-001",
    event_config := some { config_version := some 3 }, config_version := some 3 }

/-- C2 counterexample: in the Registered state an HTTP 401 response makes
`send_heartbeat` return `None` *without wiping anything* — credential, device
id and cached configuration all survive — refuting the claim that HTTP 401
triggers the same wipe as a `token_revoked` body. -/
theorem heartbeat_401_no_wipe_cex :
    send_heartbeat registeredConfig ["ssid=Old\n"] (some (401, {})) rollbackOkEnv =
      (registeredConfig, ["ssid=Old\n"], none) ∧
    registeredConfig.device_token = some "tok" ∧
    registeredConfig.event_config ≠ none := by
  refine ⟨rfl, rfl, by decide⟩

/-- C2 (amended): on an HTTP *200* response whose body carries
`status == "token_revoked"`, the heartbeat wipes credential, device id and
cached configuration together, leaves the serial unchanged, and returns no
result; on HTTP 401 it returns no result with the whole state unchanged. -/
theorem heartbeat_revocation (cfg : Config) (file : List String) (data : HBBody)
    (env : SsidEnv) (h : data.status = some "token_revoked") :
    (send_heartbeat cfg file (some (200, data)) env).1.device_token = none ∧
    (send_heartbeat cfg file (some (200, data)) env).1.device_id = none ∧
    (send_heartbeat cfg file (some (200, data)) env).1.event_config = none ∧
    (send_heartbeat cfg file (some (200, data)) env).1.config_version = none ∧
    (send_heartbeat cfg file (some (200, data)) env).1.device_serial = cfg.device_serial ∧
    (send_heartbeat cfg file (some (200, data)) env).2.2 = none ∧
    (∀ body2 : HBBody, send_heartbeat cfg file (some (401, body2)) env = (cfg, file, none)) := by
  have hsh : send_heartbeat cfg file (some (200, data)) env =
      (wipe_device_data (heartbeat_token_update cfg data.device_token), file, none) := by
    simp [send_heartbeat, h]
  refine ⟨?_, ?_, ?_, ?_, ?_, ?_, ?_⟩
  · rw [hsh]; rfl
  · rw [hsh]; rfl
  · rw [hsh]; rfl
  · rw [hsh]; rfl
  · rw [hsh]
    exact heartbeat_token_update_serial cfg data.device_token
  · rw [hsh]
  · intro body2
    simp [send_heartbeat]

/-- A revoked-token response body. -/
def revokedBody : HBBody :=
  { status := some "token_revoked", revocation_reason := some "deauthorized" }

theorem heartbeat_revocation_witness :
    (send_heartbeat registeredConfig ["ssid=Old\n"] (some (200, revokedBody))
        rollbackOkEnv).1.device_token = none ∧
    (send_heartbeat registeredConfig ["ssid=Old\n"] (some (200, revokedBody))
        rollbackOkEnv).1.device_serial = registeredConfig.device_serial := by
  obtain ⟨h1, -, -, -, h5, -, -⟩ :=
    heartbeat_revocation registeredConfig ["ssid=Old\n"] revokedBody rollbackOkEnv rfl
  exact ⟨h1, h5⟩

/-! ## Canonical JSON and request signing (`ManagementAgent._sign_request`)

`json.dumps(payload, sort_keys=True, separators=(',', ':'))` is modelled on
the two-level objects the agent signs: a top-level object whose values are
strings, numeric literals, or one flat object of numeric literals (the
telemetry snapshot).  Keys are sorted lexicographically at each level and the
separators carry no whitespace.  The HMAC-SHA256 hex digest itself is kept
abstract: the theorems quantify over the keyed-hash function, since the
property at stake is *which bytes are signed with which key*, not the SHA-256
compression function. -/

/-- A JSON leaf: a string, or a numeric literal carried in its serialized
form (`0.0`, `0`). -/
inductive JAtom where
  | str (s : String)
  | num (render : String)
deriving DecidableEq, Repr

/-- A JSON value of the shape the agent signs: a leaf or a flat object. -/
inductive JVal where
  | atom (a : JAtom)
  | obj (fields : List (String × JAtom))
deriving DecidableEq, Repr

/-- Code-point lexicographic order on character lists (Python `str` <). -/
def charListLt : List Char → List Char → Bool
  | [], [] => false
  | [], _ :: _ => true
  | _ :: _, [] => false
  | a :: as, b :: bs => decide (a < b) || (a == b && charListLt as bs)

/-- Non-strict code-point lexicographic order on strings. -/
def strLeB (a b : String) : Bool := charListLt a.data b.data || a == b

/-- Insert a pair into a key-sorted list of pairs. -/
def insertPair {α : Type} (kv : String × α) : List (String × α) → List (String × α)
  | [] => [kv]
  | kv2 :: rest =>
    if strLeB kv.1 kv2.1 then kv :: kv2 :: rest
    else kv2 :: insertPair kv rest

/-- `sort_keys=True`: sort the key-value pairs by key (insertion sort; JSON
object keys are distinct, so stability is immaterial). -/
def sortPairs {α : Type} : List (String × α) → List (String × α)
  | [] => []
  | kv :: rest => insertPair kv (sortPairs rest)

/-- The escaping `json.dumps` applies inside string literals, restricted to
the characters the agent's payload strings can contain. -/
def jsonEscapeChar (c : Char) : List Char :=
  if c == '\\' then ['\\', '\\']
  else if c == '"' then ['\\', '"']
  else [c]

def jsonEscape (s : String) : String := ⟨s.data.flatMap jsonEscapeChar⟩

/-- A JSON string literal. -/
def dumpStr (s : String) : String := "\"" ++ jsonEscape s ++ "\""

def dumpAtom : JAtom → String
  | .str s => dumpStr s
  | .num r => r

/-- A flat object, keys sorted, separators `(',', ':')`. -/
def dumpFlat (kvs : List (String × JAtom)) : String :=
  "\x7b" ++ String.intercalate ","
    ((sortPairs kvs).map (fun kv => dumpStr kv.1 ++ ":" ++ dumpAtom kv.2)) ++ "\x7d"

def dumpVal : JVal → String
  | .atom a => dumpAtom a
  | .obj kvs => dumpFlat kvs

/-- `json.dumps(payload, sort_keys=True, separators=(',', ':'))` on a
top-level object. -/
def dumpsCanonical (o : List (String × JVal)) : String :=
  "\x7b" ++ String.intercalate ","
    ((sortPairs o).map (fun kv => dumpStr kv.1 ++ ":" ++ dumpVal kv.2)) ++ "\x7d"

/-- The telemetry snapshot literal built inside `send_heartbeat` (both
branches), in source order. -/
def telemetry_snapshot : JVal :=
  .obj [("cpu_usage", .num "0.0"), ("memory_usage", .num "0.0"),
        ("disk_usage", .num "0.0"), ("wifi_client_count", .num "0"),
        ("uptime_seconds", .num "0")]

/-- The heartbeat payload (before signing): the unsigned provisioning shape
when the device has no usable token, the authenticated shape otherwise. -/
def heartbeat_payload (cfg : Config) (serial firmware ts : String) :
    List (String × JVal) :=
  if has_token cfg then
    [("device_token", .atom (.str (cfg.device_token.getD ""))),
     ("telemetry", telemetry_snapshot),
     ("timestamp", .atom (.str ts))]
  else
    [("serial_number", .atom (.str serial)),
     ("firmware_version", .atom (.str firmware)),
     ("telemetry", telemetry_snapshot),
     ("timestamp", .atom (.str ts))]

/-- `_sign_request`: raises when the token is falsy (`None` or empty),
otherwise returns `hmacHex(key, canonicalJSON(payload))`. -/
def sign_request (cfg : Config) (payload : List (String × JVal))
    (hmacHex : String → String → String) : Option String :=
  match cfg.device_token with
  | none => none
  | some tok => if tok = "" then none else some (hmacHex tok (dumpsCanonical payload))

/-- The request body actually posted: the payload, plus — in the
authenticated branch — the signature appended (`{**payload, 'signature':
signature}`). -/
def heartbeat_request (cfg : Config) (serial firmware ts : String)
    (hmacHex : String → String → String) : List (String × JVal) :=
  if has_token cfg then
    heartbeat_payload cfg serial firmware ts ++
      [("signature", .atom (.str (hmacHex (cfg.device_token.getD "")
        (dumpsCanonical (heartbeat_payload cfg serial firmware ts)))))]
  else heartbeat_payload cfg serial firmware ts

/-- The body minus a key (used to express "body minus the signature"). -/
def removeKey (k : String) (o : List (String × JVal)) : List (String × JVal) :=
  o.filter (fun kv => kv.1 != k)

/-- C4: a pre-registration (no usable credential) heartbeat body has no
`signature` and no `device_token` field; a post-registration body carries
`signature = hmacHex(credential, canonicalJSON(body minus signature))`, for
*every* keyed-hash function — so recomputing the digest with the stored
credential over the canonical JSON of the body minus the signature
reproduces the transmitted signature — and the canonical serialization
emits the payload keys in lexicographically sorted order. -/
theorem heartbeat_signing (cfg : Config) (serial firmware ts : String)
    (hmacHex : String → String → String) :
    (has_token cfg = false →
      List.lookup "signature" (heartbeat_request cfg serial firmware ts hmacHex) = none ∧
      List.lookup "device_token" (heartbeat_request cfg serial firmware ts hmacHex) = none) ∧
    (∀ tok, cfg.device_token = some tok → tok ≠ "" →
      heartbeat_request cfg serial firmware ts hmacHex =
        heartbeat_payload cfg serial firmware ts ++
          [("signature", .atom (.str (hmacHex tok
            (dumpsCanonical (heartbeat_payload cfg serial firmware ts)))))] ∧
      removeKey "signature" (heartbeat_request cfg serial firmware ts hmacHex) =
        heartbeat_payload cfg serial firmware ts ∧
      List.lookup "signature" (heartbeat_request cfg serial firmware ts hmacHex) =
        some (.atom (.str (hmacHex tok (dumpsCanonical (removeKey "signature"
          (heartbeat_request cfg serial firmware ts hmacHex)))))) ∧
      sign_request cfg (removeKey "signature"
          (heartbeat_request cfg serial firmware ts hmacHex)) hmacHex =
        some (hmacHex tok (dumpsCanonical (heartbeat_payload cfg serial firmware ts))) ∧
      (sortPairs (heartbeat_payload cfg serial firmware ts)).map Prod.fst =
        ["device_token", "telemetry", "timestamp"]) := by
  constructor
  · intro hp
    rw [heartbeat_request, if_neg (by rw [hp]; exact Bool.false_ne_true),
      heartbeat_payload, if_neg (by rw [hp]; exact Bool.false_ne_true)]
    constructor <;> rfl
  · intro tok htok hne
    have hht : has_token cfg = true := by
      unfold has_token
      rw [htok]
      simpa using hne
    have hgetD : cfg.device_token.getD "" = tok := by rw [htok]; rfl
    have hreq : heartbeat_request cfg serial firmware ts hmacHex =
        heartbeat_payload cfg serial firmware ts ++
          [("signature", .atom (.str (hmacHex tok
            (dumpsCanonical (heartbeat_payload cfg serial firmware ts)))))] := by
      rw [heartbeat_request, if_pos hht, hgetD]
    have hpay : heartbeat_payload cfg serial firmware ts =
        [("device_token", .atom (.str tok)),
         ("telemetry", telemetry_snapshot),
         ("timestamp", .atom (.str ts))] := by
      rw [heartbeat_payload, if_pos hht, hgetD]
    have hrem : removeKey "signature" (heartbeat_request cfg serial firmware ts hmacHex) =
        heartbeat_payload cfg serial firmware ts := by
      rw [hreq, hpay]
      rfl
    refine ⟨hreq, hrem, ?_, ?_, ?_⟩
    · rw [hrem, hreq, hpay]
      rfl
    · rw [hrem]
      simp only [sign_request, htok]
      rw [if_neg hne]
    · rw [hpay]
      rfl

/-- A concrete keyed hash standing in for hex-HMAC-SHA256 in the witness. -/
def hashW (k m : String) : String := k ++ "#" ++ m

theorem heartbeat_signing_witness :
    List.lookup "signature"
      (heartbeat_request ({} : Config) "CS-1" "1.0.0" "2026-01-01T00:00:00Z" hashW) = none ∧
    List.lookup "signature"
      (heartbeat_request ({ device_token := some "tok" } : Config) "CS-1" "1.0.0" "ts" hashW) =
      some (.atom (.str (hashW "tok" (dumpsCanonical
        (heartbeat_payload { device_token := some "tok" } "CS-1" "1.0.0" "ts"))))) := by
  refine ⟨((heartbeat_signing {} "CS-1" "1.0.0" "2026-01-01T00:00:00Z" hashW).1 rfl).1, ?_⟩
  obtain ⟨-, hrem, hlook, -, -⟩ :=
    (heartbeat_signing { device_token := some "tok" } "CS-1" "1.0.0" "ts" hashW).2
      "tok" rfl (by decide)
  rw [hlook, hrem]

end CrowdSurfer
